import Mathlib

/-!
Shallow embedding of `tradervue.py` (class `TraderVue`): the import-and-poll
workflow (`import_executions` / `__import_executions` / `import_status`), the
bad-response interpreter (`__handle_bad_http_response`), trade-list pagination
(`get_trades`), and `delete_trades`.

HTTP traffic is modelled by explicit response streams: entry `i` of a stream
is the server's response to the `i`-th request of the corresponding kind.
JSON object bodies are modelled as association lists of string key/value
pairs.  `time.sleep` and logging have no effect on the values the code
returns and are not modelled.
-/

namespace Tradervue

/-- Python-level exceptions that can escape the embedded functions
(`UnboundLocalError` from reading a local before assignment, `TypeError`
from subscripting `None`). -/
inductive PyErr where
  | unboundLocal (name : String)
  | typeError
  deriving DecidableEq, Repr

/-- Python dict lookup on a parsed JSON object: `k in jdata` / `jdata[k]`. -/
def lookupField (fields : List (String × String)) (k : String) : Option String :=
  (fields.find? (fun p => p.1 == k)).map (fun p => p.2)

/-- Lines 90-101 of `TraderVue.__handle_bad_http_response`: derive the
server-error reason from the raw response text `text` and its JSON parse
result `jdata` (`none` models `json.loads` raising `ValueError`).
The code takes the `error` field if present, else the `status` field, else
(after logging an unexpected-shape error) the raw text; an unparseable body
also yields the raw text. -/
def server_error (text : String) (jdata : Option (List (String × String))) : String :=
  match jdata with
  | some fields =>
    match lookupField fields "error" with
    | some v => v
    | none =>
      match lookupField fields "status" with
      | some v => v
      | none => text
  | none => text

/-- Modelled from the spec (§4.1 Response Interpreter): the reason is derived
by attempting to parse the body as JSON and extracting an `error` field, else
a `status` field, else, if neither key is present, the raw body text; if the
body is not parseable JSON at all, the raw text is the reason. -/
def reason_spec (text : String) (jdata : Option (List (String × String))) : String :=
  match jdata with
  | none => text
  | some fields =>
    (((lookupField fields "error").orElse (fun _ => lookupField fields "status")).getD text)

/-- Server response to one `GET /imports` status query: HTTP 200 whose JSON
body carries the given `status` field, or any non-200 response. -/
inductive StatusResp where
  | ok (status : String)
  | err
  deriving DecidableEq, Repr

/-- `TraderVue.import_status` (lines 289-303): on HTTP 200, return the parsed
payload if its status is one of the five known values, else log and return
`None`; on any other code, log and return `None`.  The payload is represented
by its `status` field, the only part the workflow reads. -/
def import_status (r : StatusResp) : Option String :=
  match r with
  | .ok status =>
    if status = "ready" ∨ status = "queued" ∨ status = "processing" ∨
       status = "succeeded" ∨ status = "failed" then
      some status
    else
      none
  | .err => none

/-- A body POSTed to `/imports`.  `batch` is the dict built at lines 314-322
before the retry loop.  `parsed424` is what the local `data` holds after the
line `data = json.loads(r.text)` in the HTTP-424 branch (line 345): the
parsed error response, which becomes the body of the next POST.  (The 200
branch also reassigns `data`, but the loop always exits there, so that value
is never POSTed.) -/
inductive Payload where
  | batch (executions : List String) (allow_duplicates overlay_commissions : Bool)
          (account_tag : Option String) (tags : Option (List String))
  | parsed424 (error : String)
  deriving DecidableEq, Repr

/-- Server response to one `POST /imports`: HTTP 200 whose JSON body carries
the given `status` field, HTTP 424 whose JSON body carries the given `error`
field, or any other status code. -/
inductive PostResp where
  | ok (status : String)
  | busy (error : String)
  | err
  deriving DecidableEq, Repr

/-- How the submission retry loop (lines 329-350) ends: `posted` for the
`break` with `import_posted = True`; `badStatus` for HTTP 200 with a
non-`queued` status (`return None`); `httpError` for any other HTTP code
(`return None`); `exhausted` when `retries_left` reaches 0 without a post. -/
inductive SubmitOutcome where
  | posted
  | badStatus
  | httpError
  | exhausted
  deriving DecidableEq, Repr

/-- Result of the submission retry loop: its outcome plus the list of bodies
POSTed, in order (one entry per attempt). -/
structure SubmitState where
  outcome : SubmitOutcome
  posts : List Payload
  deriving DecidableEq, Repr

/-- The submission retry loop of `TraderVue.__import_executions`
(lines 329-350).  `data` is the current value of the Python local `data`
(the body of the next POST), `resp` the stream of responses to successive
POSTs, and the fuel argument is `retries_left`.  On HTTP 424 the code
reassigns `data` to the parsed response body before retrying. -/
def submitLoop (data : Payload) (resp : Nat → PostResp) : Nat → SubmitState
  | 0 => ⟨.exhausted, []⟩
  | fuel + 1 =>
    match resp 0 with
    | .ok s =>
      if s = "queued" then ⟨.posted, [data]⟩ else ⟨.badStatus, [data]⟩
    | .busy e =>
      let rest := submitLoop (.parsed424 e) (fun i => resp (i + 1)) fuel
      ⟨rest.outcome, data :: rest.posts⟩
    | .err => ⟨.httpError, [data]⟩

/-- The polling `while` loop of `TraderVue.__import_executions`
(lines 361-364): while `data` is not `None`, its status is `queued` or
`processing`, and `retries_left >= 0`, query the status again.  `cur` is the
current value of `data`, `resp` the stream of responses to the remaining
status queries, and the fuel argument is `retries_left + 1` (so fuel 0 means
`retries_left` has gone negative and the loop exits).  Returns the final
value of `data` and the number of queries made inside the loop. -/
def pollLoop (resp : Nat → StatusResp) (cur : Option String) : Nat → Option String × Nat
  | 0 => (cur, 0)
  | fuel + 1 =>
    match cur with
    | none => (none, 0)
    | some s =>
      if s = "queued" ∨ s = "processing" then
        let next := pollLoop (fun i => resp (i + 1)) (import_status (resp 0)) fuel
        (next.1, next.2 + 1)
      else
        (some s, 0)

/-- What an `import_executions` call produces: the status payload
(represented by its `status` field), the `None` sentinel, or a raised
exception escaping the call. -/
inductive ImportResult where
  | payload (status : String)
  | none_
  | raise (e : PyErr)
  deriving DecidableEq, Repr

/-- Observable behaviour of one `__import_executions` call: its result, the
bodies POSTed to `/imports` in order, and the number of `GET /imports`
status queries issued. -/
structure RunOutcome where
  result : ImportResult
  posts : List Payload
  statusQueries : Nat
  deriving DecidableEq, Repr

/-- `TraderVue.__import_executions` (lines 326-382).  `batch` is the
validated body built by `import_executions`; `postResp` and `statResp` are
the response streams for `POST /imports` and `GET /imports`.  After the
submission loop: if nothing was posted, return `None`; else if
`wait_for_completion`, query the status once, run the polling loop, and
classify the final `data`: subscripting `None` raises `TypeError`;
`ready` returns `None`; `succeeded` returns the payload; the literal string
`failure` returns the payload (line 372 — note `import_status` never yields
that value); `queued`/`processing` is the still-processing timeout (`None`);
anything else is unsupported (`None`).  If the caller did not ask to wait,
return `None`. -/
def importExecutionsRun (batch : Payload) (import_retries : Nat)
    (wait_for_completion : Bool) (wait_retries : Nat)
    (postResp : Nat → PostResp) (statResp : Nat → StatusResp) : RunOutcome :=
  let sub := submitLoop batch postResp import_retries
  match sub.outcome with
  | .posted =>
    if wait_for_completion then
      let first := import_status (statResp 0)
      let res := pollLoop (fun i => statResp (i + 1)) first (wait_retries + 1)
      let queries := res.2 + 1
      match res.1 with
      | none => ⟨.raise .typeError, sub.posts, queries⟩
      | some s =>
        if s = "ready" then ⟨.none_, sub.posts, queries⟩
        else if s = "succeeded" then ⟨.payload s, sub.posts, queries⟩
        else if s = "failure" then ⟨.payload s, sub.posts, queries⟩
        else if s = "queued" ∨ s = "processing" then ⟨.none_, sub.posts, queries⟩
        else ⟨.none_, sub.posts, queries⟩
    else
      ⟨.none_, sub.posts, 0⟩
  | _ => ⟨.none_, sub.posts, 0⟩

/-- A concrete validated import batch, used in the closed evaluations. -/
def batch0 : Payload := .batch ["E1"] false false none none

/-- What `import_executions` (lines 314-322) does to its arguments while
building the request body.  `payload_tags` is the value stored under
`data['tags']` (absent when no tag list exists at line 322); `caller_tags`
is the caller's `tags` list object after the call; `caller_executions` the
caller's `executions` list after the call. -/
structure ImportArgsEffect where
  payload_tags : Option (List String)
  caller_tags : Option (List String)
  caller_executions : List String
  deriving DecidableEq, Repr

/-- Lines 314-322 of `TraderVue.import_executions`.  `data['executions']`
is `copy.deepcopy(executions)`, so the caller's executions list is read but
never mutated.  When `account_tag` is given: if `tags` is `None` the local
is rebound to a fresh empty list (the caller has no list to observe); then,
if `account_tag` is not in `tags`, `tags.append(account_tag)` mutates the
list in place — the caller's own list when one was passed.  Finally
`data['tags'] = copy.deepcopy(tags)` stores a copy whenever a list exists. -/
def import_executions_args (executions : List String) (account_tag : Option String)
    (tags : Option (List String)) : ImportArgsEffect :=
  match account_tag with
  | some a =>
    match tags with
    | none =>
      ⟨some (if a ∈ ([] : List String) then [] else [] ++ [a]), none, executions⟩
    | some t =>
      let t2 := if a ∈ t then t else t ++ [a]
      ⟨some t2, some t2, executions⟩
  | none =>
    ⟨tags, tags, executions⟩

/-- Read a Python local variable: `some v` when it is bound, `none` when it
has not been assigned yet (raising `UnboundLocalError`). -/
def localRead (v : Option String) (name : String) : Except PyErr String :=
  match v with
  | some s => .ok s
  | none => .error (.unboundLocal name)

/-- `TraderVue.delete_trades` (lines 130-141).  `delete_trade` models the
per-trade `DELETE` call (line 135).  The function body is
`results = []`, then `trade_id = str(trade_id)` — which reads the local
`trade_id` before its first assignment (it is only assigned by that very
statement and by the `for` loop below, making it a local) — then the loop
over `trade_ids` collecting one boolean per id.  Returns the result (or the
escaping exception) and the number of per-trade deletion calls issued. -/
def delete_trades (delete_trade : String → Bool) (trade_ids : List String) :
    Except PyErr (List Bool) × Nat :=
  let results : List Bool := []
  match localRead none "trade_id" with
  | .error e => (.error e, 0)
  | .ok _ =>
    let results := results ++ trade_ids.map (fun t => delete_trade t)
    (.ok results, trade_ids.length)

/-- The page loop of `TraderVue.get_trades` (lines 186-200).  `fetch page
count` models `self.__get_trades(data)` with `data['page'] = page` and
`data['count'] = count` (`none` when it reports an error).  `acc` is
`all_trades`, `page` the next page number, and the fuel argument the number
of pages still to be requested.  Each iteration sets
`trades_left = max_trades - len(all_trades)` and
`count = 100 if trades_left >= 100 else trades_left`; an error returns
`None` for the whole listing, an empty page breaks, otherwise the page is
appended.  Returns the result and the list of `(page, count)` requests
issued. -/
def getTradesLoop (fetch : Nat → Nat → Option (List Nat)) (max_trades : Nat)
    (acc : List Nat) (page : Nat) : Nat → Option (List Nat) × List (Nat × Nat)
  | 0 => (some acc, [])
  | pagesLeft + 1 =>
    let trades_left := max_trades - acc.length
    let count := if trades_left ≥ 100 then 100 else trades_left
    match fetch page count with
    | none => (none, [(page, count)])
    | some trades =>
      if trades.length = 0 then
        (some acc, [(page, count)])
      else
        let rest := getTradesLoop fetch max_trades (acc ++ trades) (page + 1) pagesLeft
        (rest.1, (page, count) :: rest.2)

/-- `TraderVue.get_trades` paging (lines 182-205): `total_pages` is 1 unless
`max_trades > 100`, in which case it is `ceil(max_trades / 100)`
(`int(math.ceil(max_trades / 100.0))` in the source; `(max_trades + 99) / 100`
on naturals), and the page loop runs over pages `1 .. total_pages`.
Trades are opaque values, modelled as naturals. -/
def get_trades (fetch : Nat → Nat → Option (List Nat)) (max_trades : Nat) :
    Option (List Nat) × List (Nat × Nat) :=
  let total_pages := if max_trades > 100 then (max_trades + 99) / 100 else 1
  getTradesLoop fetch max_trades [] 1 total_pages

/-! ## Helper lemmas -/

/-- If every remaining status response is `processing` or `queued`, the
polling loop consumes all its fuel, makes one query per unit of fuel, and
ends with `data` still holding one of the two busy statuses. -/
theorem pollLoop_stuck :
    ∀ (k : Nat) (resp : Nat → StatusResp),
      (∀ i, resp i = .ok "processing" ∨ resp i = .ok "queued") →
      ∀ s, s = "processing" ∨ s = "queued" →
      ∃ t, pollLoop resp (some s) k = (some t, k) ∧ (t = "processing" ∨ t = "queued") := by
  intro k
  induction k with
  | zero =>
    intro resp h s hs
    exact ⟨s, rfl, hs⟩
  | succ k ih =>
    intro resp h s hs
    have hcond : s = "queued" ∨ s = "processing" := hs.symm
    have hnext : import_status (resp 0) = some "processing" ∨
        import_status (resp 0) = some "queued" := by
      rcases h 0 with h0 | h0 <;> rw [h0] <;> [left; right] <;> rfl
    rcases hnext with h0 | h0
    · obtain ⟨t, ht, htp⟩ := ih (fun i => resp (i + 1)) (fun i => h (i + 1)) "processing"
        (Or.inl rfl)
      refine ⟨t, ?_, htp⟩
      simp only [pollLoop, if_pos hcond, h0, ht]
    · obtain ⟨t, ht, htp⟩ := ih (fun i => resp (i + 1)) (fun i => h (i + 1)) "queued"
        (Or.inr rfl)
      refine ⟨t, ?_, htp⟩
      simp only [pollLoop, if_pos hcond, h0, ht]

/-- A response stream of `k` HTTP 424s followed by 200/`queued` makes the
submission loop exit with `import_posted` set after exactly `k + 1` POSTs,
provided the retry budget covers them. -/
theorem submitLoop_busy_then_ok (e : String) :
    ∀ (k fuel : Nat) (data : Payload), k + 1 ≤ fuel →
      (submitLoop data (fun i => if i < k then PostResp.busy e else PostResp.ok "queued")
          fuel).outcome = .posted ∧
      (submitLoop data (fun i => if i < k then PostResp.busy e else PostResp.ok "queued")
          fuel).posts.length = k + 1 := by
  intro k
  induction k with
  | zero =>
    intro fuel data hf
    match fuel, hf with
    | f + 1, _ =>
      simp [submitLoop]
  | succ k ih =>
    intro fuel data hf
    match fuel, hf with
    | f + 1, hf =>
      have hshift :
          (fun i => if i + 1 < k + 1 then PostResp.busy e else PostResp.ok "queued")
            = (fun i => if i < k then PostResp.busy e else PostResp.ok "queued") := by
        funext i
        simp [Nat.succ_lt_succ_iff]
      have hk : k + 1 ≤ f := Nat.lt_succ_iff.mp hf
      obtain ⟨ho, hl⟩ := ih f (.parsed424 e) hk
      rw [hshift] at *
      constructor
      · simpa [submitLoop] using ho
      · simpa [submitLoop] using hl

/-- A response stream of nothing but HTTP 424s exhausts the whole retry
budget: one POST per unit of budget and no successful submission. -/
theorem submitLoop_all_busy (e : String) :
    ∀ (fuel : Nat) (data : Payload),
      (submitLoop data (fun _ => PostResp.busy e) fuel).outcome = .exhausted ∧
      (submitLoop data (fun _ => PostResp.busy e) fuel).posts.length = fuel := by
  intro fuel
  induction fuel with
  | zero => intro data; exact ⟨rfl, rfl⟩
  | succ f ih =>
    intro data
    obtain ⟨ho, hl⟩ := ih (.parsed424 e)
    exact ⟨by simpa [submitLoop] using ho, by simpa [submitLoop] using hl⟩

/-! ## Claim theorems -/

/-- C1 counterexample: with `wait_retries = 3` and every status query
answering `processing`, the run does return the timeout failure `None`, but
it issues 5 status queries, not the `wait_retries + 1 = 4` the claim states:
the loop bound `retries_left >= 0` admits one extra iteration, so the total
is the immediate query plus `wait_retries + 1` loop queries. -/
theorem poll_query_count_cex :
    (importExecutionsRun batch0 3 true 3 (fun _ => PostResp.ok "queued")
        (fun _ => StatusResp.ok "processing")).result = .none_ ∧
    (importExecutionsRun batch0 3 true 3 (fun _ => PostResp.ok "queued")
        (fun _ => StatusResp.ok "processing")).statusQueries = 5 ∧
    (importExecutionsRun batch0 3 true 3 (fun _ => PostResp.ok "queued")
        (fun _ => StatusResp.ok "processing")).statusQueries ≠ 3 + 1 := by
  refine ⟨rfl, rfl, by decide⟩

/-- C1 (amended): when submission succeeds at once and every status query
returns `processing` or `queued`, the waiting workflow returns the timeout
failure `None` and queries the import-status endpoint exactly
`wait_retries + 2` times: the immediate query plus `wait_retries + 1` loop
queries, because the loop runs while `retries_left >= 0`. -/
theorem poll_timeout_query_count (r w : Nat) (batch : Payload)
    (statResp : Nat → StatusResp)
    (h : ∀ i, statResp i = .ok "processing" ∨ statResp i = .ok "queued") :
    (importExecutionsRun batch (r + 1) true w (fun _ => PostResp.ok "queued")
        statResp).result = .none_ ∧
    (importExecutionsRun batch (r + 1) true w (fun _ => PostResp.ok "queued")
        statResp).statusQueries = w + 2 := by
  have hsub : submitLoop batch (fun _ => PostResp.ok "queued") (r + 1)
      = ⟨.posted, [batch]⟩ := by
    simp [submitLoop]
  have hfirst : import_status (statResp 0) = some "processing" ∨
      import_status (statResp 0) = some "queued" := by
    rcases h 0 with h0 | h0 <;> rw [h0] <;> [left; right] <;> rfl
  rcases hfirst with h0 | h0
  · obtain ⟨t, ht, htp⟩ := pollLoop_stuck (w + 1) (fun i => statResp (i + 1))
      (fun i => h (i + 1)) "processing" (Or.inl rfl)
    rcases htp with rfl | rfl <;>
      simp [importExecutionsRun, hsub, h0, ht]
  · obtain ⟨t, ht, htp⟩ := pollLoop_stuck (w + 1) (fun i => statResp (i + 1))
      (fun i => h (i + 1)) "queued" (Or.inr rfl)
    rcases htp with rfl | rfl <;>
      simp [importExecutionsRun, hsub, h0, ht]

/-- C1 witness: the amended count at `wait_retries = 3` with an
all-`processing` status stream. -/
theorem poll_timeout_query_count_witness :
    (importExecutionsRun batch0 (2 + 1) true 3 (fun _ => PostResp.ok "queued")
        (fun _ => StatusResp.ok "processing")).result = .none_ ∧
    (importExecutionsRun batch0 (2 + 1) true 3 (fun _ => PostResp.ok "queued")
        (fun _ => StatusResp.ok "processing")).statusQueries = 3 + 2 :=
  poll_timeout_query_count 2 3 batch0 (fun _ => StatusResp.ok "processing")
    (fun _ => Or.inl rfl)

/-- C2: when the polling phase observes the server status `failed` (a value
`import_status` itself whitelists), the call returns `None` through the
unsupported-status branch — line 372 compares against the string `failure`,
which `import_status` can never produce — instead of returning the status
payload as the claim (and the spec) state. -/
theorem failed_status_returns_none :
    importExecutionsRun batch0 3 true 3 (fun _ => PostResp.ok "queued")
        (fun _ => StatusResp.ok "failed")
      = ⟨.none_, [batch0], 1⟩ ∧
    import_status (StatusResp.ok "failed") = some "failed" := by
  refine ⟨rfl, rfl⟩

/-- C3: after an HTTP 424 response, the retry POSTs the parsed 424 error
body — the line `data = json.loads(r.text)` in the 424 branch overwrites the
request payload — so the second attempt does not resubmit the validated
batch, contradicting the claim that every attempt POSTs the same batch. -/
theorem retry_posts_parsed_error_body :
    (submitLoop batch0
        (fun i => if i = 0 then PostResp.busy "locked" else PostResp.ok "queued") 3).posts
      = [batch0, Payload.parsed424 "locked"] ∧
    Payload.parsed424 "locked" ≠ batch0 := by
  refine ⟨rfl, by decide⟩

/-- C4: with a stream of exactly `k` HTTP 424s followed by 200/`queued` and
`k + 1` within the budget, submission exits the loop posted after exactly
`k + 1` POST attempts; with nothing but 424s, the call returns `None` after
exactly `import_retries` POST attempts. -/
theorem submit_retry_budget (k r : Nat) (e : String) (batch : Payload)
    (statResp : Nat → StatusResp) :
    (k + 1 ≤ r →
      (submitLoop batch
          (fun i => if i < k then PostResp.busy e else PostResp.ok "queued") r).outcome
        = .posted ∧
      (submitLoop batch
          (fun i => if i < k then PostResp.busy e else PostResp.ok "queued") r).posts.length
        = k + 1) ∧
    ((importExecutionsRun batch r false 0 (fun _ => PostResp.busy e) statResp).result
        = .none_ ∧
     (importExecutionsRun batch r false 0 (fun _ => PostResp.busy e) statResp).posts.length
        = r) := by
  constructor
  · intro hk
    exact submitLoop_busy_then_ok e k r batch hk
  · obtain ⟨ho, hl⟩ := submitLoop_all_busy e r batch
    constructor
    · simp [importExecutionsRun, ho]
    · simp [importExecutionsRun, ho, hl]

/-- C4 witness: one 424 then 200/`queued` under budget 3 posts twice and
succeeds; an all-424 stream under budget 3 posts three times and fails. -/
theorem submit_retry_budget_witness :
    ((submitLoop batch0
        (fun i => if i < 1 then PostResp.busy "busy" else PostResp.ok "queued") 3).outcome
      = .posted ∧
     (submitLoop batch0
        (fun i => if i < 1 then PostResp.busy "busy" else PostResp.ok "queued") 3).posts.length
      = 1 + 1) ∧
    ((importExecutionsRun batch0 3 false 0 (fun _ => PostResp.busy "busy")
        (fun _ => StatusResp.err)).result = .none_ ∧
     (importExecutionsRun batch0 3 false 0 (fun _ => PostResp.busy "busy")
        (fun _ => StatusResp.err)).posts.length = 3) :=
  ⟨(submit_retry_budget 1 3 "busy" batch0 (fun _ => StatusResp.err)).1 (by decide),
   (submit_retry_budget 1 3 "busy" batch0 (fun _ => StatusResp.err)).2⟩

/-- C5: a validated call can still raise after I/O: if submission succeeds
and the first status query comes back non-200, `import_status` returns
`None`, the polling loop is skipped, and `data['status']` at line 366
subscripts `None`, raising `TypeError` — contradicting the claim that the
call never raises once validation has passed. -/
theorem poll_none_raises :
    importExecutionsRun batch0 3 true 3 (fun _ => PostResp.ok "queued")
        (fun _ => StatusResp.err)
      = ⟨.raise .typeError, [batch0], 1⟩ := rfl

/-- C6: the submitted payload's tag list is the given tags with
`account_tag` appended at the end when it was missing (and just
`[account_tag]` when no tag list was given), and is the given list unchanged
when `account_tag` is already present — the injection is idempotent and
order-preserving. -/
theorem account_tag_injection (execs : List String) (a : String) (t : List String) :
    (a ∉ t →
      (import_executions_args execs (some a) (some t)).payload_tags = some (t ++ [a])) ∧
    ((import_executions_args execs (some a) none).payload_tags = some [a]) ∧
    (a ∈ t →
      (import_executions_args execs (some a) (some t)).payload_tags = some t) := by
  refine ⟨fun h => ?_, ?_, fun h => ?_⟩ <;>
    simp [import_executions_args, *]

/-- C6 witness: `ACCT1` with tags `["a","b"]` yields `["a","b","ACCT1"]`;
with tags `["a","ACCT1"]` the list is unchanged; with no tags, `["ACCT1"]`. -/
theorem account_tag_injection_witness :
    (import_executions_args [] (some "ACCT1") (some ["a", "b"])).payload_tags
      = some ["a", "b", "ACCT1"] ∧
    (import_executions_args [] (some "ACCT1") (some ["a", "ACCT1"])).payload_tags
      = some ["a", "ACCT1"] ∧
    (import_executions_args [] (some "ACCT1") none).payload_tags = some ["ACCT1"] :=
  ⟨(account_tag_injection [] "ACCT1" ["a", "b"]).1 (by decide),
   (account_tag_injection [] "ACCT1" ["a", "ACCT1"]).2.2 (by decide),
   (account_tag_injection [] "ACCT1" ["a", "b"]).2.1⟩

/-- C7: listing with `max_trades = 250` issues the page requests
`(1,100), (2,100), (3,50)` and concatenates full pages in order; a page of
zero items skips the remaining pages; a failed page request — at page 1, 2
or 3, i.e. even after non-empty pages have already been fetched — makes the
whole call return `None`, discarding the partial results rather than
returning them. -/
theorem get_trades_paging (fetch : Nat → Nat → Option (List Nat)) (l1 l2 l3 : List Nat) :
    (fetch 1 100 = some l1 → l1.length = 100 →
     fetch 2 100 = some l2 → l2.length = 100 →
     fetch 3 50 = some l3 → l3.length = 50 →
     get_trades fetch 250 = (some (l1 ++ l2 ++ l3), [(1, 100), (2, 100), (3, 50)])) ∧
    (fetch 1 100 = some l1 → l1.length = 100 → fetch 2 100 = some [] →
     get_trades fetch 250 = (some l1, [(1, 100), (2, 100)])) ∧
    (fetch 1 100 = none →
     get_trades fetch 250 = (none, [(1, 100)])) ∧
    (fetch 1 100 = some l1 → l1.length = 100 → fetch 2 100 = none →
     get_trades fetch 250 = (none, [(1, 100), (2, 100)])) ∧
    (fetch 1 100 = some l1 → l1.length = 100 →
     fetch 2 100 = some l2 → l2.length = 100 →
     fetch 3 50 = none →
     get_trades fetch 250 = (none, [(1, 100), (2, 100), (3, 50)])) := by
  refine ⟨fun h1 hl1 h2 hl2 h3 hl3 => ?_, fun h1 hl1 h2 => ?_, fun h1 => ?_,
    fun h1 hl1 h2 => ?_, fun h1 hl1 h2 hl2 h3 => ?_⟩ <;>
    simp [get_trades, getTradesLoop, List.length_append, *]

/-- C7 witness: three full pages of 100/100/50 items, an empty second page,
and a failing first, second, and third page request — the latter two after
non-empty pages were already fetched — each at `max_trades = 250`. -/
theorem get_trades_paging_witness :
    get_trades (fun _ c => some (List.replicate c 0)) 250
      = (some (List.replicate 100 0 ++ List.replicate 100 0 ++ List.replicate 50 0),
         [(1, 100), (2, 100), (3, 50)]) ∧
    get_trades (fun p c => if p = 1 then some (List.replicate c 0) else some []) 250
      = (some (List.replicate 100 0), [(1, 100), (2, 100)]) ∧
    get_trades (fun _ _ => none) 250 = (none, [(1, 100)]) ∧
    get_trades (fun p c => if p = 1 then some (List.replicate c 0) else none) 250
      = (none, [(1, 100), (2, 100)]) ∧
    get_trades (fun p c => if p < 3 then some (List.replicate c 0) else none) 250
      = (none, [(1, 100), (2, 100), (3, 50)]) :=
  ⟨(get_trades_paging (fun _ c => some (List.replicate c 0))
      (List.replicate 100 0) (List.replicate 100 0) (List.replicate 50 0)).1
      rfl rfl rfl rfl rfl rfl,
   (get_trades_paging (fun p c => if p = 1 then some (List.replicate c 0) else some [])
      (List.replicate 100 0) [] []).2.1 rfl rfl rfl,
   (get_trades_paging (fun _ _ => none) [] [] []).2.2.1 rfl,
   (get_trades_paging (fun p c => if p = 1 then some (List.replicate c 0) else none)
      (List.replicate 100 0) [] []).2.2.2.1 rfl rfl rfl,
   (get_trades_paging (fun p c => if p < 3 then some (List.replicate c 0) else none)
      (List.replicate 100 0) (List.replicate 100 0) []).2.2.2.2 rfl rfl rfl rfl rfl⟩

/-- C8: the reason the bad-response handler derives equals the spec's
description — the JSON `error` field if present, else the `status` field,
else the raw body text, with an unparseable body also yielding the raw
text. -/
theorem bad_response_reason_spec_equiv (text : String)
    (jdata : Option (List (String × String))) :
    server_error text jdata = reason_spec text jdata := by
  cases jdata with
  | none => rfl
  | some fields =>
    cases h1 : lookupField fields "error" with
    | some v => simp [server_error, reason_spec, h1, Option.orElse]
    | none =>
      cases h2 : lookupField fields "status" with
      | some v => simp [server_error, reason_spec, h1, h2, Option.orElse]
      | none => simp [server_error, reason_spec, h1, h2, Option.orElse]

/-- C9: `delete_trades` reads the local `trade_id` before it is ever
assigned, so every call raises `UnboundLocalError` before issuing any
per-trade deletion, whatever the arguments and whatever the per-trade
delete would have answered. -/
theorem delete_trades_unbound_local (del : String → Bool) (ids : List String) :
    delete_trades del ids = (.error (.unboundLocal "trade_id"), 0) := rfl

/-- C10: when `account_tag` is given and missing from a caller-supplied tag
list, the caller's list itself ends up with `account_tag` appended (the
`tags.append` mutates it in place); in every other case the caller's tags
are left as passed, and the caller's executions list is never modified. -/
theorem import_executions_arg_mutation (execs : List String) (a : String)
    (t : List String) (tags : Option (List String)) :
    (a ∉ t →
      (import_executions_args execs (some a) (some t)).caller_tags = some (t ++ [a])) ∧
    (a ∈ t →
      (import_executions_args execs (some a) (some t)).caller_tags = some t) ∧
    ((import_executions_args execs (some a) none).caller_tags = none) ∧
    ((import_executions_args execs none tags).caller_tags = tags) ∧
    ((import_executions_args execs (some a) tags).caller_executions = execs) ∧
    ((import_executions_args execs none tags).caller_executions = execs) := by
  refine ⟨fun h => ?_, fun h => ?_, ?_, ?_, ?_, ?_⟩
  · simp [import_executions_args, h]
  · simp [import_executions_args, h]
  · simp [import_executions_args]
  · simp [import_executions_args]
  · cases tags <;> simp [import_executions_args]
  · simp [import_executions_args]

/-- C10 witness: `ACCT1` absent from `["a","b"]` leaves the caller's list as
`["a","b","ACCT1"]`; present in `["a","ACCT1"]` leaves it unchanged; the
caller's executions list survives both calls unmodified. -/
theorem import_executions_arg_mutation_witness :
    (import_executions_args ["x"] (some "ACCT1") (some ["a", "b"])).caller_tags
      = some ["a", "b", "ACCT1"] ∧
    (import_executions_args ["x"] (some "ACCT1") (some ["a", "ACCT1"])).caller_tags
      = some ["a", "ACCT1"] ∧
    (import_executions_args ["x"] (some "ACCT1") (some ["a", "b"])).caller_executions
      = ["x"] :=
  ⟨(import_executions_arg_mutation ["x"] "ACCT1" ["a", "b"] none).1 (by decide),
   (import_executions_arg_mutation ["x"] "ACCT1" ["a", "ACCT1"] none).2.1 (by decide),
   (import_executions_arg_mutation ["x"] "ACCT1" ["a", "b"] (some ["a", "b"])).2.2.2.2.1⟩

end Tradervue
